import Mathlib

/-!
Verification development for a small OpenGL rendering harness written in Rust
(sources: src/geometry.rs, src/shader.rs).

Modelling conventions (shallow embedding):

* `f32`/`f64` payloads are modelled as elements of an arbitrary field `K`
  (instantiate `K := ℝ` for the intended reading; keeping `K` generic keeps
  every definition computable, so concrete runs can be checked over `ℚ`).
  The transcendental library routines `cos`, `sin`, `sqrt` and the constant
  `two_pi` used by the torus generator are abstract parameters
  `c s sq : K → K`, `twoPi : K`; theorems that need facts about them take
  those facts as hypotheses (e.g. `c twoPi = c 0`, which holds for the
  mathematical cosine at `twoPi = 2π`).  `x.powf(2.0)` is modelled as `x ^ 2`
  (the C `pow` of a float with integral exponent `2.0` is its square).
* `usize` arithmetic is modelled on `ℕ`; the `as u32` casts in the index
  generator are modelled as `% 2 ^ 32`.
* Rust `Vec` buffers that the source preallocates with `vec![0; n]` and then
  fills by indexed assignment are modelled as `List`s built by `List.replicate`
  and filled by `List.set` through the sequential writer `writeAt`.
* The OpenGL context is an external collaborator.  Every GL entry point the
  code calls is modelled either as a driver record supplying the call's result
  (link status, info logs, created handles, active uniforms, ...) or as an
  emitted element of a command trace (`GlCmd`), so that resource
  creation/release and uploads are observable in the theorems.  Functions that
  mutate `self` in Rust return the updated state explicitly.
* `SimpleResult<T>` / `Result<T, SimpleError>` is modelled as
  `Except String T`, the error string being the `SimpleError` text.
-/

/-- Sequential indexed assignment: `writeAt l pos [a, b, c]` performs
`l[pos] = a; l[pos+1] = b; l[pos+2] = c`, mirroring consecutive Rust
slice-index assignments. -/
def writeAt {α : Type*} : List α → ℕ → List α → List α
  | l, _, [] => l
  | l, pos, a :: rest => writeAt (l.set pos a) (pos + 1) rest

/-- Ring-major list of `(ring, side)` loop-counter pairs: the iteration order
of the doubly nested `for ring ... for side ...` loops in the source. -/
def torusPairs (numSides numRings : ℕ) : List (ℕ × ℕ) :=
  (List.range numRings).flatMap (fun ring => (List.range numSides).map (fun side => (ring, side)))

-- ---------------------------------------------------------------------------
-- src/geometry.rs, TriangleMesh::new_torus — vertex-attribute generation
-- ---------------------------------------------------------------------------

/-- The mutable loop state of the vertex-generation loop of
`TriangleMesh::new_torus` (src/geometry.rs lines 31-40): the three output
buffers and the two write cursors. -/
structure TorusArrays (K : Type*) where
  points : List K
  normals : List K
  tex_coords : List K
  idx : ℕ
  tidx : ℕ

/-- One iteration of the vertex loop body of `TriangleMesh::new_torus`
(src/geometry.rs lines 42-71) at loop counters `p = (ring, side)`.
In the source `u`, `cu`, `su` are computed once per `ring` in the outer loop;
recomputing them per `(ring, side)` yields the same values.  The normalization
step re-reads the just-written normal components from the buffer, exactly as
the source does (`normals[idx] /= len` etc.). -/
def torusVertexStep {K : Type*} [Field K] (c s sq : K → K) (twoPi outerRadius innerRadius : K)
    (numSides numRings : ℕ) (st : TorusArrays K) (p : ℕ × ℕ) : TorusArrays K :=
  let ringFactor := twoPi / numRings
  let sideFactor := twoPi / numSides
  let u := ringFactor * p.1
  let cu := c u
  let su := s u
  let v := sideFactor * p.2
  let cv := c v
  let sv := s v
  let r := outerRadius + innerRadius * cv
  let points := writeAt st.points st.idx [r * cu, r * su, innerRadius * sv]
  let normals := writeAt st.normals st.idx [cv * cu * r, cv * su * r, sv * r]
  let tex_coords := writeAt st.tex_coords st.tidx [u / twoPi, v / twoPi]
  let tidx := st.tidx + 2
  let len := sq ((normals.getD st.idx 0) ^ 2 + (normals.getD (st.idx + 1) 0) ^ 2
    + (normals.getD (st.idx + 2) 0) ^ 2)
  let normals1 := normals.set st.idx (normals.getD st.idx 0 / len)
  let normals2 := normals1.set (st.idx + 1) (normals1.getD (st.idx + 1) 0 / len)
  let normals3 := normals2.set (st.idx + 2) (normals2.getD (st.idx + 2) 0 / len)
  let idx := st.idx + 3
  ⟨points, normals3, tex_coords, idx, tidx⟩

/-- The vertex-generation phase of `TriangleMesh::new_torus`
(src/geometry.rs lines 28-73): buffers preallocated to their exact final
sizes (`3 * num_verts`, `3 * num_verts`, `2 * num_verts` with
`num_verts = num_sides * (num_rings + 1)`, one extra ring duplicating the
first), then filled by the doubly nested loop over `ring ∈ 0..num_rings + 1`
and `side ∈ 0..num_sides`. -/
def torusVertexData {K : Type*} [Field K] (c s sq : K → K) (twoPi outerRadius innerRadius : K)
    (numSides numRings : ℕ) : TorusArrays K :=
  let numVerts := numSides * (numRings + 1)
  (List.range (numRings + 1)).foldl
    (fun st ring => (List.range numSides).foldl
      (fun st' side =>
        torusVertexStep c s sq twoPi outerRadius innerRadius numSides numRings st' (ring, side))
      st)
    ⟨List.replicate (3 * numVerts) 0, List.replicate (3 * numVerts) 0,
      List.replicate (2 * numVerts) 0, 0, 0⟩

/-- Closed form of the three position components written for loop counters
`p = (ring, side)` (src/geometry.rs lines 51-53). -/
def torusPointChunk {K : Type*} [Field K] (c s : K → K) (twoPi outerRadius innerRadius : K)
    (numSides numRings : ℕ) (p : ℕ × ℕ) : List K :=
  let u := twoPi / numRings * p.1
  let v := twoPi / numSides * p.2
  let r := outerRadius + innerRadius * c v
  [r * c u, r * s u, innerRadius * s v]

/-- Closed form of the three normal components written for loop counters
`p = (ring, side)`: the radial gradient, normalized by the `sq`-modelled
square root of its squared length (src/geometry.rs lines 55-70). -/
def torusNormalChunk {K : Type*} [Field K] (c s sq : K → K) (twoPi outerRadius innerRadius : K)
    (numSides numRings : ℕ) (p : ℕ × ℕ) : List K :=
  let u := twoPi / numRings * p.1
  let v := twoPi / numSides * p.2
  let r := outerRadius + innerRadius * c v
  let len := sq ((c v * c u * r) ^ 2 + (c v * s u * r) ^ 2 + (s v * r) ^ 2)
  [c v * c u * r / len, c v * s u * r / len, s v * r / len]

/-- Closed form of the two texture coordinates written for loop counters
`p = (ring, side)` (src/geometry.rs lines 59-60): the two angles divided by
`two_pi`. -/
def torusTexChunk {K : Type*} [Field K] (twoPi : K) (numSides numRings : ℕ) (p : ℕ × ℕ) : List K :=
  [twoPi / numRings * p.1 / twoPi, twoPi / numSides * p.2 / twoPi]

-- ---------------------------------------------------------------------------
-- src/geometry.rs, TriangleMesh::new_torus — index generation
-- ---------------------------------------------------------------------------

/-- One iteration of the index loop body of `TriangleMesh::new_torus`
(src/geometry.rs lines 76-88) at loop counters `p = (ring, side)`: six
sequential writes of `usize` vertex indices cast `as u32` (modelled
`% 2 ^ 32`), then `idx += 6`.  In the source `ring_start` and
`next_ring_start` are computed once per `ring`; recomputing them per
`(ring, side)` yields the same values. -/
def torusIndexStep (numSides : ℕ) (st : List ℕ × ℕ) (p : ℕ × ℕ) : List ℕ × ℕ :=
  let ring_start := p.1 * numSides
  let next_ring_start := (p.1 + 1) * numSides
  let next_side := (p.2 + 1) % numSides
  (writeAt st.1 st.2
    [(ring_start + p.2) % 2 ^ 32, (next_ring_start + p.2) % 2 ^ 32,
      (next_ring_start + next_side) % 2 ^ 32, (ring_start + p.2) % 2 ^ 32,
      (next_ring_start + next_side) % 2 ^ 32, (ring_start + next_side) % 2 ^ 32],
    st.2 + 6)

/-- The index-generation phase of `TriangleMesh::new_torus`
(src/geometry.rs lines 34, 75-89): a buffer of `6 * faces` zeros with
`faces = num_sides * num_rings`, filled by the doubly nested loop over
`ring ∈ 0..num_rings` and `side ∈ 0..num_sides`. -/
def torusIndices (numSides numRings : ℕ) : List ℕ :=
  let faces := numSides * numRings
  ((List.range numRings).foldl
    (fun st ring => (List.range numSides).foldl
      (fun st' side => torusIndexStep numSides st' (ring, side))
      st)
    (List.replicate (6 * faces) 0, 0)).1

/-- `num_verts` of `TriangleMesh::new_torus` (src/geometry.rs line 29): one
extra ring duplicates the first ring. -/
def torusNumVerts (numSides numRings : ℕ) : ℕ :=
  numSides * (numRings + 1)

-- ---------------------------------------------------------------------------
-- OpenGL constants used by the sources (values from the glow crate / GL headers)
-- ---------------------------------------------------------------------------

def VERTEX_SHADER : ℕ := 35633
def FRAGMENT_SHADER : ℕ := 35632
def GEOMETRY_SHADER : ℕ := 36313
def TESS_CONTROL_SHADER : ℕ := 36488
def TESS_EVALUATION_SHADER : ℕ := 36487
def COMPUTE_SHADER : ℕ := 37305
def ELEMENT_ARRAY_BUFFER : ℕ := 34963
def ARRAY_BUFFER : ℕ := 34962
def STATIC_DRAW : ℕ := 35044
def GL_FLOAT : ℕ := 5126

-- ---------------------------------------------------------------------------
-- src/shader.rs — ShaderType (lines 17-58)
-- ---------------------------------------------------------------------------

/-- `ShaderType` enumeration (src/shader.rs lines 17-24). -/
inductive ShaderType where
  | Vertex
  | Fragment
  | Geometry
  | TessControl
  | TessEvaluation
  | Compute
  deriving DecidableEq

/-- `impl Into<u32> for ShaderType` (src/shader.rs lines 28-39). -/
def ShaderType.into : ShaderType → ℕ
  | ShaderType.Vertex => VERTEX_SHADER
  | ShaderType.Fragment => FRAGMENT_SHADER
  | ShaderType.Geometry => GEOMETRY_SHADER
  | ShaderType.TessControl => TESS_CONTROL_SHADER
  | ShaderType.TessEvaluation => TESS_EVALUATION_SHADER
  | ShaderType.Compute => COMPUTE_SHADER

/-- `impl TryFrom<u32> for ShaderType` (src/shader.rs lines 44-58); the Rust
`match` on the six stage constants is rendered as an equality chain. -/
def ShaderType.try_from (value : ℕ) : Except String ShaderType :=
  if value = VERTEX_SHADER then Except.ok ShaderType.Vertex
  else if value = FRAGMENT_SHADER then Except.ok ShaderType.Fragment
  else if value = GEOMETRY_SHADER then Except.ok ShaderType.Geometry
  else if value = TESS_CONTROL_SHADER then Except.ok ShaderType.TessControl
  else if value = TESS_EVALUATION_SHADER then Except.ok ShaderType.TessEvaluation
  else if value = COMPUTE_SHADER then Except.ok ShaderType.Compute
  else Except.error ("Unknown shader type: " ++ toString value)

-- ---------------------------------------------------------------------------
-- src/shader.rs — GlslValue (lines 91-114)
-- ---------------------------------------------------------------------------

/-- `GlslValue` tagged union (src/shader.rs lines 91-114).  Scalar floats are
field elements; `VecN` payloads are their components, `MatN` payloads the
column-major entry slice produced by `value.as_slice()`. -/
inductive GlslValue (K : Type*) where
  | Float32 (v : K)
  | Float32Vec2 (x y : K)
  | Float32Vec3 (x y z : K)
  | Float32Vec4 (x y z w : K)
  | Float64 (v : K)
  | Int32 (v : ℤ)
  | UnsignedInt32 (v : ℕ)
  | Bool (b : Bool)
  | Float32Mat2 (entries : List K)
  | Float32Mat3 (entries : List K)
  | Float32Mat4 (entries : List K)

-- ---------------------------------------------------------------------------

-- ---------------------------------------------------------------------------
-- GL command trace
-- ---------------------------------------------------------------------------

/-- Observable GPU-side effects issued by the modelled code, in call order.
Calls that *return* a value (object creation, status queries, reflection) take
their results from a driver record; creation events are recorded in the trace
once the driver reports success, so allocations and releases can be compared.
-/
inductive GlCmd (K : Type*) where
  | createShader (shaderType : ℕ)
  | shaderSource (shader : ℕ) (source : String)
  | compileShader (shader : ℕ)
  | deleteShader (shader : ℕ)
  | linkProgram (program : ℕ)
  | useProgram (program : Option ℕ)
  | createBuffer (buffer : ℕ)
  | bindBuffer (target : ℕ) (buffer : Option ℕ)
  | bufferDataU32 (target : ℕ) (data : List ℕ) (usage : ℕ)
  | bufferDataF32 (target : ℕ) (data : List K) (usage : ℕ)
  | deleteBuffer (buffer : ℕ)
  | createVertexArray (vertexArray : ℕ)
  | bindVertexArray (vertexArray : Option ℕ)
  | vertexAttribPointerF32 (index size dataType : ℕ) (normalized : Bool) (stride offset : ℕ)
  | enableVertexAttribArray (index : ℕ)
  | uniform1F (location : Option ℕ) (v : K)
  | uniform2F (location : Option ℕ) (x y : K)
  | uniform3F (location : Option ℕ) (x y z : K)
  | uniform4F (location : Option ℕ) (x y z w : K)
  | uniform1I (location : Option ℕ) (v : ℤ)
  | uniform1U (location : Option ℕ) (v : ℕ)
  | uniformMatrix2F (location : Option ℕ) (transpose : Bool) (entries : List K)
  | uniformMatrix3F (location : Option ℕ) (transpose : Bool) (entries : List K)
  | uniformMatrix4F (location : Option ℕ) (transpose : Bool) (entries : List K)

-- ---------------------------------------------------------------------------
-- BTreeMap<String, V> model: association list with insert-replace semantics
-- ---------------------------------------------------------------------------

/-- `BTreeMap::contains_key`. -/
def mapContainsKey {β : Type*} (m : List (String × β)) (k : String) : Bool :=
  m.any (fun e => e.1 == k)

/-- `BTreeMap` lookup (`get` / `Index`): value of the first entry for `k`. -/
def mapFind {β : Type*} (m : List (String × β)) (k : String) : Option β :=
  (m.find? (fun e => e.1 == k)).map Prod.snd

/-- `BTreeMap::insert`: replace the value of an existing entry for `k`, else
append a new entry. -/
def mapInsert {β : Type*} : List (String × β) → String → β → List (String × β)
  | [], k, v => [(k, v)]
  | e :: rest, k, v => if e.1 == k then (k, v) :: rest else e :: mapInsert rest k v

-- ---------------------------------------------------------------------------
-- src/shader.rs — ShaderManager (lines 121-205)
-- ---------------------------------------------------------------------------

/-- `ShaderManager` state (src/shader.rs lines 121-126): the name → compiled
shader handle map.  The GL context reference is external. -/
structure ShaderManager where
  shaders : List (String × ℕ)

/-- Driver record for one `ShaderManager::load_shader` call: the result of
`std::fs::read_to_string`, of `create_shader`, the compile status, and the
shader info log the driver would report. -/
structure LoadShaderDriver where
  readResult : Except String String
  createShaderResult : Except String ℕ
  compileStatus : Bool
  shaderInfoLog : String

/-- `ShaderManager::load_shader` (src/shader.rs lines 136-176): read the
source file, create a shader object, compile it; on compile failure return the
info log as the error WITHOUT issuing `delete_shader` on the created handle
(exactly as the source does); on success insert the handle under `key`. -/
def ShaderManager.load_shader {K : Type*} (mgr : ShaderManager) (d : LoadShaderDriver)
    (key : String) (shader_type : ShaderType) :
    Except String Unit × ShaderManager × List (GlCmd K) :=
  match d.readResult with
  | Except.error e => (Except.error e, mgr, [])
  | Except.ok source =>
    match d.createShaderResult with
    | Except.error e => (Except.error e, mgr, [])
    | Except.ok shader =>
      let cmds : List (GlCmd K) :=
        [GlCmd.createShader shader_type.into, GlCmd.shaderSource shader source,
          GlCmd.compileShader shader]
      if !d.compileStatus then
        (Except.error d.shaderInfoLog, mgr, cmds)
      else
        (Except.ok (), ⟨mapInsert mgr.shaders key shader⟩, cmds)

-- ---------------------------------------------------------------------------
-- src/shader.rs — ShaderProgram (lines 220-447)
-- ---------------------------------------------------------------------------

/-- `ShaderProgram` state (src/shader.rs lines 220-227).  The GL context and
the `Arc<ShaderManager>` reference are external; `shaders` is the list of
attached stage handles, `uniform_locations` the reflected uniform table. -/
structure ShaderProgram where
  program : ℕ
  linked : Bool
  shaders : List ℕ
  uniform_locations : List (String × Option ℕ)

/-- `ShaderProgram::new` after a successful `create_program`
(src/shader.rs lines 230-244): not linked, no attached stages, empty uniform
table. -/
def ShaderProgram.new (program : ℕ) : ShaderProgram :=
  ⟨program, false, [], []⟩

/-- Driver record for one `ShaderProgram::link` call: the link status the
driver reports, its program info log, the `get_active_uniform` result for
each index `0 .. get_active_uniforms - 1` (`none` models a failed lookup,
skipped by the source), and `get_uniform_location` per name. -/
structure LinkDriver where
  linkStatus : Bool
  infoLog : String
  activeUniforms : List (Option String)
  uniformLocation : String → Option ℕ

/-- The uniform-table rebuild of a successful `ShaderProgram::link`
(src/shader.rs lines 271-286): `uniform_locations.clear()` then one
`insert(name, get_uniform_location(name))` per found active uniform. -/
def buildUniformLocations (d : LinkDriver) : List (String × Option ℕ) :=
  d.activeUniforms.foldl
    (fun m mu =>
      match mu with
      | some name => mapInsert m name (d.uniformLocation name)
      | none => m)
    []

/-- `ShaderProgram::link` (src/shader.rs lines 258-292): when not yet linked,
issue `link_program` and check the status; on failure return the info log and
leave the state untouched; on success rebuild the uniform table and set
`linked`.  When already linked, do nothing and return `Ok`. -/
def ShaderProgram.link {K : Type*} (p : ShaderProgram) (d : LinkDriver) :
    Except String Unit × ShaderProgram × List (GlCmd K) :=
  if !p.linked then
    if !d.linkStatus then
      (Except.error d.infoLog, p, [GlCmd.linkProgram p.program])
    else
      (Except.ok (),
        { p with uniform_locations := buildUniformLocations d, linked := true },
        [GlCmd.linkProgram p.program])
  else
    (Except.ok (), p, [])

/-- `ShaderProgram::is_linked` (src/shader.rs lines 306-308). -/
def ShaderProgram.is_linked (p : ShaderProgram) : Bool :=
  p.linked

/-- `ShaderProgram::assert_linked` (src/shader.rs lines 429-435). -/
def ShaderProgram.assert_linked (p : ShaderProgram) : Except String Unit :=
  if !p.linked then Except.error "Shader program not been linked"
  else Except.ok ()

/-- `ShaderProgram::use_program` (src/shader.rs lines 294-300): propagate the
`assert_linked` error, else activate the program. -/
def ShaderProgram.use_program {K : Type*} (p : ShaderProgram) :
    Except String Unit × List (GlCmd K) :=
  match p.assert_linked with
  | Except.error e => (Except.error e, [])
  | Except.ok _ => (Except.ok (), [GlCmd.useProgram (some p.program)])

/-- `ShaderProgram::set_uniform_value` (src/shader.rs lines 321-385), a
`&self` method: it never mutates the program state.  Returns the emitted log
warnings and the GL commands.  `supported_extensions` models
`self.context.supported_extensions()`.  The two `f64` warnings elide the
`(passing {})` value interpolation of the source. -/
def ShaderProgram.set_uniform_value {K : Type*} (p : ShaderProgram)
    (supported_extensions : List String) (name : String) (value : GlslValue K) :
    List String × List (GlCmd K) :=
  if !(mapContainsKey p.uniform_locations name) then
    (["Shader program has no uniform with name \"" ++ name ++ "\""], [])
  else
    let location := (mapFind p.uniform_locations name).getD none
    match value with
    | GlslValue.Float32 v => ([], [GlCmd.uniform1F location v])
    | GlslValue.Float32Vec2 x y => ([], [GlCmd.uniform2F location x y])
    | GlslValue.Float32Vec3 x y z => ([], [GlCmd.uniform3F location x y z])
    | GlslValue.Float32Vec4 x y z w => ([], [GlCmd.uniform4F location x y z w])
    | GlslValue.Float64 _ =>
      if supported_extensions.contains "ARB_gpu_shader_fp64" then
        (["Pass f64 uniforms is not supported yet"], [])
      else
        (["Your OpenGL version does not support f64 uniforms"], [])
    | GlslValue.Int32 v => ([], [GlCmd.uniform1I location v])
    | GlslValue.UnsignedInt32 v => ([], [GlCmd.uniform1U location v])
    | GlslValue.Bool b => ([], [GlCmd.uniform1U location (if b then 1 else 0)])
    | GlslValue.Float32Mat2 entries => ([], [GlCmd.uniformMatrix2F location false entries])
    | GlslValue.Float32Mat3 entries => ([], [GlCmd.uniformMatrix3F location false entries])
    | GlslValue.Float32Mat4 entries => ([], [GlCmd.uniformMatrix4F location false entries])

-- ---------------------------------------------------------------------------
-- src/geometry.rs — TriangleMesh::new (lines 94-227)
-- ---------------------------------------------------------------------------

/-- `TriangleMesh` state on successful construction
(src/geometry.rs lines 10-16, 221-226): `vertex_count = indices.len()`
(the source stores it `as i32`), the vertex array handle, and the owned
buffer handles in creation order.  The context reference is external. -/
structure TriangleMeshState where
  vertex_count : ℕ
  vertex_array : ℕ
  buffers : List ℕ

/-- Driver record for one `TriangleMesh::new` call: the results of the
successive `create_buffer` calls, consumed in call order, and the result of
`create_vertex_array`. -/
structure MeshDriver where
  bufferResults : List (Except String ℕ)
  vertexArrayResult : Except String ℕ

/-- Final phase of `TriangleMesh.new` (src/geometry.rs lines 178-227): create
the vertex array, bind the element buffer, wire attribute slots 0-3, return
the mesh state.  A `create_vertex_array` failure, like the buffer failures,
releases nothing. -/
def TriangleMesh.newVertexArray {K : Type*} (d : MeshDriver) (indices : List ℕ)
    (buffers : List ℕ) (index_buffer position_buffer normal_buffer : ℕ)
    (maybe_text_coords_buffer maybe_tangents_buffer : Option ℕ)
    (cmds : List (GlCmd K)) :
    Except String TriangleMeshState × List (GlCmd K) :=
  match d.vertexArrayResult with
  | Except.error e => (Except.error e, cmds)
  | Except.ok vertex_array =>
    let setup : List (GlCmd K) :=
      [GlCmd.createVertexArray vertex_array,
        GlCmd.bindVertexArray (some vertex_array),
        GlCmd.bindBuffer ELEMENT_ARRAY_BUFFER (some index_buffer),
        GlCmd.bindBuffer ARRAY_BUFFER (some position_buffer),
        GlCmd.vertexAttribPointerF32 0 3 GL_FLOAT false 0 0,
        GlCmd.enableVertexAttribArray 0,
        GlCmd.bindBuffer ARRAY_BUFFER (some normal_buffer),
        GlCmd.vertexAttribPointerF32 1 3 GL_FLOAT false 0 0,
        GlCmd.enableVertexAttribArray 1]
    let texSetup : List (GlCmd K) :=
      match maybe_text_coords_buffer with
      | some text_coords_buffer =>
        [GlCmd.bindBuffer ARRAY_BUFFER (some text_coords_buffer),
          GlCmd.vertexAttribPointerF32 2 2 GL_FLOAT false 0 0,
          GlCmd.enableVertexAttribArray 2]
      | none => []
    let tanSetup : List (GlCmd K) :=
      match maybe_tangents_buffer with
      | some tangents_buffer =>
        [GlCmd.bindBuffer ARRAY_BUFFER (some tangents_buffer),
          GlCmd.vertexAttribPointerF32 3 4 GL_FLOAT false 0 0,
          GlCmd.enableVertexAttribArray 3]
      | none => []
    (Except.ok ⟨indices.length, vertex_array, buffers⟩,
      cmds ++ setup ++ texSetup ++ tanSetup)
/-- Continuation of `TriangleMesh.new` after the optional texture-coordinate
buffer (src/geometry.rs lines 161-227): the optional tangent buffer, then the
vertex array and the attribute wiring. -/
def TriangleMesh.newAfterTex {K : Type*} (d : MeshDriver) (indices : List ℕ)
    (buffers : List ℕ) (index_buffer position_buffer normal_buffer : ℕ)
    (maybe_text_coords_buffer : Option ℕ) (maybe_tangents : Option (List K))
    (rs : List (Except String ℕ)) (cmds : List (GlCmd K)) :
    Except String TriangleMeshState × List (GlCmd K) :=
  match maybe_tangents with
  | some tangents =>
    (match rs.headD (Except.error "missing create_buffer result") with
    | Except.error e => (Except.error e, cmds)
    | Except.ok tangents_buffer =>
      let cmds' := cmds ++
        [GlCmd.createBuffer tangents_buffer,
          GlCmd.bindBuffer ARRAY_BUFFER (some tangents_buffer),
          GlCmd.bufferDataF32 ARRAY_BUFFER tangents STATIC_DRAW]
      TriangleMesh.newVertexArray d indices (buffers ++ [tangents_buffer])
        index_buffer position_buffer normal_buffer maybe_text_coords_buffer
        (some tangents_buffer) cmds')
  | none =>
    TriangleMesh.newVertexArray d indices buffers
      index_buffer position_buffer normal_buffer maybe_text_coords_buffer
      none cmds

/-- `TriangleMesh::new` (src/geometry.rs lines 94-227): allocate and fill the
index buffer, the position buffer, the normal buffer, then optionally the
texture-coordinate and tangent buffers, then the vertex array with its
attribute bindings (slot 0 = position, 1 = normal, 2 = texcoord, 3 = tangent).
Each `create_buffer` / `create_vertex_array` failure propagates via `?` as the
error result — exactly as the source, NO `delete_buffer` is issued for buffers
already created in the same call. -/
def TriangleMesh.new {K : Type*} (d : MeshDriver) (indices : List ℕ)
    (points normals : List K) (maybe_tex_coords maybe_tangents : Option (List K)) :
    Except String TriangleMeshState × List (GlCmd K) :=
  let rs0 := d.bufferResults
  match rs0.headD (Except.error "missing create_buffer result") with
  | Except.error e => (Except.error e, [])
  | Except.ok index_buffer =>
    let cmds0 : List (GlCmd K) :=
      [GlCmd.createBuffer index_buffer,
        GlCmd.bindBuffer ELEMENT_ARRAY_BUFFER (some index_buffer),
        GlCmd.bufferDataU32 ELEMENT_ARRAY_BUFFER indices STATIC_DRAW]
    match rs0.tail.headD (Except.error "missing create_buffer result") with
    | Except.error e => (Except.error e, cmds0)
    | Except.ok position_buffer =>
      let cmds1 := cmds0 ++
        [GlCmd.createBuffer position_buffer,
          GlCmd.bindBuffer ARRAY_BUFFER (some position_buffer),
          GlCmd.bufferDataF32 ARRAY_BUFFER points STATIC_DRAW]
      match rs0.tail.tail.headD (Except.error "missing create_buffer result") with
      | Except.error e => (Except.error e, cmds1)
      | Except.ok normal_buffer =>
        let cmds2 := cmds1 ++
          [GlCmd.createBuffer normal_buffer,
            GlCmd.bindBuffer ARRAY_BUFFER (some normal_buffer),
            GlCmd.bufferDataF32 ARRAY_BUFFER normals STATIC_DRAW]
        let rs3 := rs0.tail.tail.tail
        match maybe_tex_coords with
        | some tex_coords =>
          (match rs3.headD (Except.error "missing create_buffer result") with
          | Except.error e => (Except.error e, cmds2)
          | Except.ok text_coords_buffer =>
            let cmds3 := cmds2 ++
              [GlCmd.createBuffer text_coords_buffer,
                GlCmd.bindBuffer ARRAY_BUFFER (some text_coords_buffer),
                GlCmd.bufferDataF32 ARRAY_BUFFER tex_coords STATIC_DRAW]
            TriangleMesh.newAfterTex d indices
              [index_buffer, position_buffer, normal_buffer, text_coords_buffer]
              index_buffer position_buffer normal_buffer (some text_coords_buffer)
              maybe_tangents rs3.tail cmds3)
        | none =>
          TriangleMesh.newAfterTex d indices
            [index_buffer, position_buffer, normal_buffer]
            index_buffer position_buffer normal_buffer none
            maybe_tangents rs3 cmds2


/-- The six indices the quad of loop counters `p = (ring, side)` contributes,
with the `as u32` casts (src/geometry.rs lines 81-86). -/
def torusQuad (numSides : ℕ) (p : ℕ × ℕ) : List ℕ :=
  [(p.1 * numSides + p.2) % 2 ^ 32,
    ((p.1 + 1) * numSides + p.2) % 2 ^ 32,
    ((p.1 + 1) * numSides + (p.2 + 1) % numSides) % 2 ^ 32,
    (p.1 * numSides + p.2) % 2 ^ 32,
    ((p.1 + 1) * numSides + (p.2 + 1) % numSides) % 2 ^ 32,
    (p.1 * numSides + (p.2 + 1) % numSides) % 2 ^ 32]

-- ---------------------------------------------------------------------------
-- Generic lemmas: sequential writes into preallocated lists, loop flattening
-- ---------------------------------------------------------------------------

theorem set_append_len {α : Type*} (l₂ : List α) (n : ℕ) (a : α) (l₁ : List α) :
    (l₁ ++ l₂).set (l₁.length + n) a = l₁ ++ l₂.set n a := by
  induction l₁ with
  | nil => simp
  | cons b t ih =>
    simp only [List.cons_append, List.length_cons]
    rw [Nat.add_right_comm, List.set_cons_succ, ih]

theorem set_append_pos {α : Type*} (l₁ l₂ : List α) (k n : ℕ) (hk : k = l₁.length) (a : α) :
    (l₁ ++ l₂).set (k + n) a = l₁ ++ l₂.set n a := by
  subst hk; exact set_append_len l₂ n a l₁

theorem set_append_zero {α : Type*} (l₁ l₂ : List α) (k : ℕ) (hk : k = l₁.length) (a : α) :
    (l₁ ++ l₂).set k a = l₁ ++ l₂.set 0 a := by
  subst hk; exact set_append_len l₂ 0 a l₁

theorem getD_append_pos {α : Type*} (l₁ l₂ : List α) (k n : ℕ) (hk : k = l₁.length) (d : α) :
    (l₁ ++ l₂).getD (k + n) d = l₂.getD n d := by
  subst hk
  rw [List.getD_eq_getElem?_getD, List.getD_eq_getElem?_getD,
    List.getElem?_append_right (Nat.le_add_right _ _)]
  simp

theorem getD_append_zero {α : Type*} (l₁ l₂ : List α) (k : ℕ) (hk : k = l₁.length) (d : α) :
    (l₁ ++ l₂).getD k d = l₂.getD 0 d := by
  subst hk; simpa using getD_append_pos l₁ l₂ l₁.length 0 rfl d

theorem writeAt_fill {α : Type*} (z : α) :
    ∀ (chunk done : List α) (rest : ℕ), chunk.length ≤ rest →
      writeAt (done ++ List.replicate rest z) done.length chunk
        = done ++ chunk ++ List.replicate (rest - chunk.length) z := by
  intro chunk
  induction chunk with
  | nil => intro done rest _; simp [writeAt]
  | cons a ch ih =>
    intro done rest h
    obtain ⟨m, rfl⟩ : ∃ m, rest = m + 1 := ⟨rest - 1, by simp at h; omega⟩
    simp only [writeAt, List.replicate_succ]
    have hset : (done ++ z :: List.replicate m z).set done.length a
        = (done ++ [a]) ++ List.replicate m z := by
      rw [set_append_zero done _ done.length rfl a, List.set_cons_zero,
        ← List.singleton_append, ← List.append_assoc]
    rw [hset]
    have hl : done.length + 1 = (done ++ [a]).length := by simp
    have hch : ch.length ≤ m := by simp at h; omega
    rw [hl, ih (done ++ [a]) m hch]
    simp [List.append_assoc]

theorem writeAt_fill_pos {α : Type*} (z : α) (chunk done : List α) (rest k : ℕ)
    (hk : k = done.length) (h : chunk.length ≤ rest) :
    writeAt (done ++ List.replicate rest z) k chunk
      = done ++ chunk ++ List.replicate (rest - chunk.length) z := by
  subst hk; exact writeAt_fill z chunk done rest h

theorem foldl_nested {σ ι κ : Type*} (F : σ → ι × κ → σ) (l₁ : List ι) (l₂ : List κ)
    (init : σ) :
    l₁.foldl (fun st x => l₂.foldl (fun st' y => F st' (x, y)) st) init
      = (l₁.flatMap (fun x => l₂.map (fun y => (x, y)))).foldl F init := by
  induction l₁ generalizing init with
  | nil => rfl
  | cons x t ih =>
    rw [List.foldl_cons, List.flatMap_cons, List.foldl_append, List.foldl_map]
    exact ih _

theorem flatMap_length_const {α ι : Type*} (L : List ι) (g : ι → List α) (m : ℕ)
    (hg : ∀ x ∈ L, (g x).length = m) : (L.flatMap g).length = m * L.length := by
  induction L with
  | nil => simp
  | cons a t ih =>
    rw [List.flatMap_cons, List.length_append, hg a (List.mem_cons_self a t),
      ih (fun x hx => hg x (List.mem_cons_of_mem a hx)), List.length_cons]
    ring

theorem flatMap_congr_mem {α ι : Type*} (L : List ι) (f g : ι → List α)
    (h : ∀ x ∈ L, f x = g x) : L.flatMap f = L.flatMap g := by
  induction L with
  | nil => rfl
  | cons a t ih =>
    rw [List.flatMap_cons, List.flatMap_cons, h a (List.mem_cons_self a t),
      ih (fun x hx => h x (List.mem_cons_of_mem a hx))]

theorem flatMap_getElem?_chunk {α ι : Type*} (g : ι → List α) (m : ℕ) :
    ∀ (L : List ι) (i j : ℕ), (∀ x ∈ L, (g x).length = m) → j < m →
      ∀ (hi : i < L.length), (L.flatMap g)[m * i + j]? = (g (L.get ⟨i, hi⟩))[j]? := by
  intro L
  induction L with
  | nil => intro i j _ _ hi; simp at hi
  | cons a t ih =>
    intro i j hg hj hi
    rw [List.flatMap_cons]
    cases i with
    | zero =>
      rw [List.getElem?_append_left (by rw [hg a (List.mem_cons_self a t)]; omega)]
      norm_num
    | succ i' =>
      have hga : (g a).length = m := hg a (List.mem_cons_self a t)
      rw [List.getElem?_append_right (by rw [hga, Nat.mul_succ]; omega)]
      have harith : m * (i' + 1) + j - (g a).length = m * i' + j := by
        rw [hga, Nat.mul_succ]; omega
      rw [harith]
      exact ih i' j (fun x hx => hg x (List.mem_cons_of_mem a hx)) hj (by simpa using hi)

theorem writeLoop_fill {α ι : Type*} (g : ι → List α) (m : ℕ) (z : α)
    (hg : ∀ x, (g x).length = m) :
    ∀ (L : List ι) (done : List α) (rest : ℕ), m * L.length ≤ rest →
      L.foldl (fun st x => (writeAt st.1 st.2 (g x), st.2 + m))
          (done ++ List.replicate rest z, done.length)
        = (done ++ L.flatMap g ++ List.replicate (rest - m * L.length) z,
            done.length + m * L.length) := by
  intro L
  induction L with
  | nil => intro done rest _; simp
  | cons x t ih =>
    intro done rest h
    rw [List.length_cons, Nat.mul_succ] at h
    have hx : (g x).length ≤ rest := by rw [hg]; omega
    have hstep : (writeAt (done ++ List.replicate rest z) done.length (g x), done.length + m)
        = ((done ++ g x) ++ List.replicate (rest - m) z, (done ++ g x).length) := by
      rw [writeAt_fill z (g x) done rest hx, hg]
      simp [hg]
    have h2 : m * t.length ≤ rest - m := by omega
    simp only [List.foldl_cons]
    rw [hstep, ih (done ++ g x) (rest - m) h2]
    refine Prod.ext ?_ ?_
    · rw [List.flatMap_cons]
      have hc : rest - m - m * t.length = rest - m * (x :: t).length := by
        rw [List.length_cons, Nat.mul_succ]; omega
      rw [hc, List.append_assoc done (g x) (t.flatMap g)]
    · rw [List.length_append, hg, List.length_cons, Nat.mul_succ]
      omega

-- ---------------------------------------------------------------------------
-- Torus index generation: loop/comprehension equivalence
-- ---------------------------------------------------------------------------

theorem torusPairs_length (numSides numRings : ℕ) :
    (torusPairs numSides numRings).length = numRings * numSides := by
  unfold torusPairs
  rw [flatMap_length_const _ _ numSides (fun x _ => by simp), List.length_range,
    Nat.mul_comm]

theorem mem_torusPairs (numSides numRings : ℕ) (p : ℕ × ℕ) :
    p ∈ torusPairs numSides numRings ↔ p.1 < numRings ∧ p.2 < numSides := by
  unfold torusPairs
  simp only [List.mem_flatMap, List.mem_map, List.mem_range]
  constructor
  · rintro ⟨ring, hr, side, hs, rfl⟩
    exact ⟨hr, hs⟩
  · rintro ⟨h1, h2⟩
    exact ⟨p.1, h1, p.2, h2, rfl⟩

theorem torusPairs_getElem? (numSides numRings ring side : ℕ)
    (hr : ring < numRings) (hs : side < numSides) :
    (torusPairs numSides numRings)[numSides * ring + side]? = some (ring, side) := by
  unfold torusPairs
  rw [flatMap_getElem?_chunk (fun r => (List.range numSides).map (fun s' => (r, s')))
    numSides (List.range numRings) ring side (fun x _ => by simp) hs
    (by simpa using hr)]
  rw [List.get_range, List.getElem?_map, List.getElem?_range hs]
  rfl

theorem torusPairs_flatMap {α : Type*} (numSides numRings : ℕ) (g : ℕ × ℕ → List α) :
    (torusPairs numSides numRings).flatMap g
      = (List.range numRings).flatMap (fun ring =>
          (List.range numSides).flatMap (fun side => g (ring, side))) := by
  unfold torusPairs
  rw [List.flatMap_assoc]
  exact flatMap_congr_mem _ _ _ (fun ring _ => List.flatMap_map _ _ _)

theorem torusIndices_eq_flatMap (numSides numRings : ℕ) :
    torusIndices numSides numRings
      = (torusPairs numSides numRings).flatMap (torusQuad numSides) := by
  have h1 : torusIndices numSides numRings
      = ((torusPairs numSides numRings).foldl
          (fun st x => (writeAt st.1 st.2 (torusQuad numSides x), st.2 + 6))
          (List.replicate (6 * (numSides * numRings)) 0, 0)).1 :=
    congrArg Prod.fst (foldl_nested (torusIndexStep numSides) (List.range numRings)
      (List.range numSides) (List.replicate (6 * (numSides * numRings)) 0, 0))
  have h2 := writeLoop_fill (torusQuad numSides) 6 0 (fun _ => rfl)
      (torusPairs numSides numRings) [] (6 * (numSides * numRings))
      (le_of_eq (by rw [torusPairs_length]; ring))
  refine h1.trans (Eq.trans (congrArg Prod.fst h2) ?_)
  have hz : 6 * (numSides * numRings) - 6 * (torusPairs numSides numRings).length = 0 := by
    rw [torusPairs_length, Nat.mul_comm numRings numSides]
    exact Nat.sub_self _
  rw [hz]
  simp

-- ---------------------------------------------------------------------------
-- Torus vertex generation: loop/comprehension equivalence
-- ---------------------------------------------------------------------------

theorem vertexWrite_plumbing {K : Type*} [Field K] (sq : K → K)
    (pa pb pc2 na nb nc2 ta tb : K) (dP dN dT : List K) (rP rN rT : ℕ)
    (hlen : dN.length = dP.length) (hP : 3 ≤ rP) (hN : 3 ≤ rN) (hT : 2 ≤ rT) :
    (let normals := writeAt (dN ++ List.replicate rN 0) dP.length [na, nb, nc2]
     let len := sq ((normals.getD dP.length 0) ^ 2 + (normals.getD (dP.length + 1) 0) ^ 2
       + (normals.getD (dP.length + 2) 0) ^ 2)
     let normals1 := normals.set dP.length (normals.getD dP.length 0 / len)
     let normals2 := normals1.set (dP.length + 1) (normals1.getD (dP.length + 1) 0 / len)
     let normals3 := normals2.set (dP.length + 2) (normals2.getD (dP.length + 2) 0 / len)
     (⟨writeAt (dP ++ List.replicate rP 0) dP.length [pa, pb, pc2], normals3,
        writeAt (dT ++ List.replicate rT 0) dT.length [ta, tb],
        dP.length + 3, dT.length + 2⟩ : TorusArrays K))
      = ⟨dP ++ [pa, pb, pc2] ++ List.replicate (rP - 3) 0,
          dN ++ [na / sq (na ^ 2 + nb ^ 2 + nc2 ^ 2), nb / sq (na ^ 2 + nb ^ 2 + nc2 ^ 2),
            nc2 / sq (na ^ 2 + nb ^ 2 + nc2 ^ 2)] ++ List.replicate (rN - 3) 0,
          dT ++ [ta, tb] ++ List.replicate (rT - 2) 0,
          dP.length + 3, dT.length + 2⟩ := by
  have e1 : writeAt (dN ++ List.replicate rN (0 : K)) dP.length [na, nb, nc2]
      = dN ++ [na, nb, nc2] ++ List.replicate (rN - 3) 0 :=
    writeAt_fill_pos 0 [na, nb, nc2] dN rN dP.length hlen.symm
      (by simp only [List.length_cons, List.length_nil]; omega)
  simp only [e1]
  have r0 : (dN ++ [na, nb, nc2] ++ List.replicate (rN - 3) (0 : K)).getD dP.length 0 = na := by
    rw [List.append_assoc, getD_append_zero dN _ dP.length hlen.symm]
    rfl
  have r1 : (dN ++ [na, nb, nc2] ++ List.replicate (rN - 3) (0 : K)).getD (dP.length + 1) 0
      = nb := by
    rw [List.append_assoc, getD_append_pos dN _ dP.length 1 hlen.symm]
    rfl
  have r2 : (dN ++ [na, nb, nc2] ++ List.replicate (rN - 3) (0 : K)).getD (dP.length + 2) 0
      = nc2 := by
    rw [List.append_assoc, getD_append_pos dN _ dP.length 2 hlen.symm]
    rfl
  simp only [r0, r1, r2]
  set L := sq (na ^ 2 + nb ^ 2 + nc2 ^ 2) with hL
  have s0 : (dN ++ [na, nb, nc2] ++ List.replicate (rN - 3) (0 : K)).set dP.length (na / L)
      = dN ++ [na / L, nb, nc2] ++ List.replicate (rN - 3) 0 := by
    rw [List.append_assoc, set_append_zero dN _ dP.length hlen.symm, List.append_assoc]
    rfl
  simp only [s0]
  have r1' : (dN ++ [na / L, nb, nc2] ++ List.replicate (rN - 3) (0 : K)).getD (dP.length + 1) 0
      = nb := by
    rw [List.append_assoc, getD_append_pos dN _ dP.length 1 hlen.symm]
    rfl
  simp only [r1']
  have s1 : (dN ++ [na / L, nb, nc2] ++ List.replicate (rN - 3) (0 : K)).set (dP.length + 1)
        (nb / L)
      = dN ++ [na / L, nb / L, nc2] ++ List.replicate (rN - 3) 0 := by
    rw [List.append_assoc, set_append_pos dN _ dP.length 1 hlen.symm, List.append_assoc]
    rfl
  simp only [s1]
  have r2' : (dN ++ [na / L, nb / L, nc2] ++ List.replicate (rN - 3) (0 : K)).getD
        (dP.length + 2) 0
      = nc2 := by
    rw [List.append_assoc, getD_append_pos dN _ dP.length 2 hlen.symm]
    rfl
  simp only [r2']
  have s2 : (dN ++ [na / L, nb / L, nc2] ++ List.replicate (rN - 3) (0 : K)).set (dP.length + 2)
        (nc2 / L)
      = dN ++ [na / L, nb / L, nc2 / L] ++ List.replicate (rN - 3) 0 := by
    rw [List.append_assoc, set_append_pos dN _ dP.length 2 hlen.symm, List.append_assoc]
    rfl
  simp only [s2]
  have eP : writeAt (dP ++ List.replicate rP (0 : K)) dP.length [pa, pb, pc2]
      = dP ++ [pa, pb, pc2] ++ List.replicate (rP - 3) 0 :=
    writeAt_fill_pos 0 [pa, pb, pc2] dP rP dP.length rfl
      (by simp only [List.length_cons, List.length_nil]; omega)
  have eT : writeAt (dT ++ List.replicate rT (0 : K)) dT.length [ta, tb]
      = dT ++ [ta, tb] ++ List.replicate (rT - 2) 0 :=
    writeAt_fill_pos 0 [ta, tb] dT rT dT.length rfl
      (by simp only [List.length_cons, List.length_nil]; omega)
  rw [eP, eT]

theorem torusVertexStep_fill {K : Type*} [Field K] (c s sq : K → K)
    (twoPi outerRadius innerRadius : K) (numSides numRings : ℕ) (p : ℕ × ℕ)
    (dP dN dT : List K) (rP rN rT : ℕ) (hlen : dN.length = dP.length)
    (hP : 3 ≤ rP) (hN : 3 ≤ rN) (hT : 2 ≤ rT) :
    torusVertexStep c s sq twoPi outerRadius innerRadius numSides numRings
        ⟨dP ++ List.replicate rP 0, dN ++ List.replicate rN 0, dT ++ List.replicate rT 0,
          dP.length, dT.length⟩ p
      = ⟨dP ++ torusPointChunk c s twoPi outerRadius innerRadius numSides numRings p
            ++ List.replicate (rP - 3) 0,
          dN ++ torusNormalChunk c s sq twoPi outerRadius innerRadius numSides numRings p
            ++ List.replicate (rN - 3) 0,
          dT ++ torusTexChunk twoPi numSides numRings p ++ List.replicate (rT - 2) 0,
          dP.length + 3, dT.length + 2⟩ := by
  simp only [torusVertexStep, torusPointChunk, torusNormalChunk, torusTexChunk]
  exact vertexWrite_plumbing sq _ _ _ _ _ _ _ _ dP dN dT rP rN rT hlen hP hN hT

theorem torusVertexLoop_fill {K : Type*} [Field K] (c s sq : K → K)
    (twoPi outerRadius innerRadius : K) (numSides numRings : ℕ) :
    ∀ (P : List (ℕ × ℕ)) (dP dN dT : List K) (rP rN rT : ℕ),
      dN.length = dP.length → 3 * P.length ≤ rP → 3 * P.length ≤ rN → 2 * P.length ≤ rT →
      P.foldl (torusVertexStep c s sq twoPi outerRadius innerRadius numSides numRings)
          ⟨dP ++ List.replicate rP 0, dN ++ List.replicate rN 0, dT ++ List.replicate rT 0,
            dP.length, dT.length⟩
        = ⟨dP ++ P.flatMap (torusPointChunk c s twoPi outerRadius innerRadius numSides numRings)
              ++ List.replicate (rP - 3 * P.length) 0,
            dN ++ P.flatMap (torusNormalChunk c s sq twoPi outerRadius innerRadius numSides numRings)
              ++ List.replicate (rN - 3 * P.length) 0,
            dT ++ P.flatMap (torusTexChunk twoPi numSides numRings)
              ++ List.replicate (rT - 2 * P.length) 0,
            dP.length + 3 * P.length, dT.length + 2 * P.length⟩ := by
  intro P
  induction P with
  | nil =>
    intro dP dN dT rP rN rT hlen h1 h2 h3
    simp
  | cons p t ih =>
    intro dP dN dT rP rN rT hlen h1 h2 h3
    rw [List.length_cons, Nat.mul_succ] at h1 h2 h3
    rw [List.foldl_cons,
      torusVertexStep_fill c s sq twoPi outerRadius innerRadius numSides numRings p
        dP dN dT rP rN rT hlen (by omega) (by omega) (by omega)]
    have hP3 : (torusPointChunk c s twoPi outerRadius innerRadius numSides numRings p).length
        = 3 := by simp [torusPointChunk]
    have hN3 : (torusNormalChunk c s sq twoPi outerRadius innerRadius numSides numRings p).length
        = 3 := by simp [torusNormalChunk]
    have hT2 : (torusTexChunk twoPi numSides numRings p).length = 2 := by simp [torusTexChunk]
    have e1 : dP.length + 3
        = (dP ++ torusPointChunk c s twoPi outerRadius innerRadius numSides numRings p).length := by
      simp [hP3]
    have e2 : dT.length + 2 = (dT ++ torusTexChunk twoPi numSides numRings p).length := by
      simp [hT2]
    rw [e1, e2,
      ih (dP ++ torusPointChunk c s twoPi outerRadius innerRadius numSides numRings p)
        (dN ++ torusNormalChunk c s sq twoPi outerRadius innerRadius numSides numRings p)
        (dT ++ torusTexChunk twoPi numSides numRings p)
        (rP - 3) (rN - 3) (rT - 2)
        (by simp [hP3, hN3, hlen]) (by omega) (by omega) (by omega)]
    simp only [TorusArrays.mk.injEq]
    refine ⟨?_, ?_, ?_, ?_, ?_⟩
    · rw [List.flatMap_cons]
      have hc : rP - 3 - 3 * t.length = rP - 3 * (p :: t).length := by
        rw [List.length_cons, Nat.mul_succ]; omega
      rw [hc, List.append_assoc dP]
    · rw [List.flatMap_cons]
      have hc : rN - 3 - 3 * t.length = rN - 3 * (p :: t).length := by
        rw [List.length_cons, Nat.mul_succ]; omega
      rw [hc, List.append_assoc dN]
    · rw [List.flatMap_cons]
      have hc : rT - 2 - 2 * t.length = rT - 2 * (p :: t).length := by
        rw [List.length_cons, Nat.mul_succ]; omega
      rw [hc, List.append_assoc dT]
    · rw [List.length_append, hP3, List.length_cons, Nat.mul_succ]
      omega
    · rw [List.length_append, hT2, List.length_cons, Nat.mul_succ]
      omega

theorem torusVertexData_eq {K : Type*} [Field K] (c s sq : K → K)
    (twoPi outerRadius innerRadius : K) (numSides numRings : ℕ) :
    torusVertexData c s sq twoPi outerRadius innerRadius numSides numRings
      = ⟨(torusPairs numSides (numRings + 1)).flatMap
            (torusPointChunk c s twoPi outerRadius innerRadius numSides numRings),
          (torusPairs numSides (numRings + 1)).flatMap
            (torusNormalChunk c s sq twoPi outerRadius innerRadius numSides numRings),
          (torusPairs numSides (numRings + 1)).flatMap (torusTexChunk twoPi numSides numRings),
          3 * (numSides * (numRings + 1)), 2 * (numSides * (numRings + 1))⟩ := by
  have h0 : torusVertexData c s sq twoPi outerRadius innerRadius numSides numRings
      = (torusPairs numSides (numRings + 1)).foldl
          (torusVertexStep c s sq twoPi outerRadius innerRadius numSides numRings)
          ⟨List.replicate (3 * (numSides * (numRings + 1))) 0,
            List.replicate (3 * (numSides * (numRings + 1))) 0,
            List.replicate (2 * (numSides * (numRings + 1))) 0, 0, 0⟩ :=
    foldl_nested (torusVertexStep c s sq twoPi outerRadius innerRadius numSides numRings)
      (List.range (numRings + 1)) (List.range numSides) _
  have hb3 : 3 * (torusPairs numSides (numRings + 1)).length
      ≤ 3 * (numSides * (numRings + 1)) :=
    le_of_eq (by rw [torusPairs_length]; ring)
  have hb2 : 2 * (torusPairs numSides (numRings + 1)).length
      ≤ 2 * (numSides * (numRings + 1)) :=
    le_of_eq (by rw [torusPairs_length]; ring)
  have h1 := torusVertexLoop_fill c s sq twoPi outerRadius innerRadius numSides numRings
    (torusPairs numSides (numRings + 1)) [] [] []
    (3 * (numSides * (numRings + 1))) (3 * (numSides * (numRings + 1)))
    (2 * (numSides * (numRings + 1))) rfl hb3 hb3 hb2
  refine h0.trans (h1.trans ?_)
  have hz3 : 3 * (numSides * (numRings + 1)) - 3 * (torusPairs numSides (numRings + 1)).length
      = 0 := by
    rw [torusPairs_length, Nat.mul_comm (numRings + 1) numSides]
    exact Nat.sub_self _
  have hz2 : 2 * (numSides * (numRings + 1)) - 2 * (torusPairs numSides (numRings + 1)).length
      = 0 := by
    rw [torusPairs_length, Nat.mul_comm (numRings + 1) numSides]
    exact Nat.sub_self _
  rw [hz3, hz2]
  simp only [TorusArrays.mk.injEq, List.replicate_zero, List.append_nil, List.nil_append,
    List.length_nil, Nat.zero_add]
  refine ⟨trivial, trivial, trivial, ?_, ?_⟩
  · rw [torusPairs_length]; ring
  · rw [torusPairs_length]; ring

-- ---------------------------------------------------------------------------
-- Torus helper facts: lengths, index bounds, element extraction
-- ---------------------------------------------------------------------------

theorem torus_index_bound (numSides numRings a b : ℕ) (ha : a ≤ numRings) (hb : b < numSides) :
    a * numSides + b < numSides * (numRings + 1) :=
  calc a * numSides + b < a * numSides + numSides := by omega
  _ ≤ numRings * numSides + numSides :=
    Nat.add_le_add_right (Nat.mul_le_mul_right numSides ha) numSides
  _ = numSides * (numRings + 1) := by ring

theorem torusVertexData_points_length {K : Type*} [Field K] (c s sq : K → K)
    (twoPi outerRadius innerRadius : K) (numSides numRings : ℕ) :
    (torusVertexData c s sq twoPi outerRadius innerRadius numSides numRings).points.length
      = 3 * (numSides * (numRings + 1)) := by
  simp only [torusVertexData_eq]
  rw [flatMap_length_const _ _ 3 (fun p _ => by simp [torusPointChunk]), torusPairs_length]
  ring

theorem torusVertexData_normals_length {K : Type*} [Field K] (c s sq : K → K)
    (twoPi outerRadius innerRadius : K) (numSides numRings : ℕ) :
    (torusVertexData c s sq twoPi outerRadius innerRadius numSides numRings).normals.length
      = 3 * (numSides * (numRings + 1)) := by
  simp only [torusVertexData_eq]
  rw [flatMap_length_const _ _ 3 (fun p _ => by simp [torusNormalChunk]), torusPairs_length]
  ring

theorem torusVertexData_tex_length {K : Type*} [Field K] (c s sq : K → K)
    (twoPi outerRadius innerRadius : K) (numSides numRings : ℕ) :
    (torusVertexData c s sq twoPi outerRadius innerRadius numSides numRings).tex_coords.length
      = 2 * (numSides * (numRings + 1)) := by
  simp only [torusVertexData_eq]
  rw [flatMap_length_const _ _ 2 (fun p _ => by simp [torusTexChunk]), torusPairs_length]
  ring

theorem torusIndices_length (numSides numRings : ℕ) :
    (torusIndices numSides numRings).length = 6 * (numSides * numRings) := by
  rw [torusIndices_eq_flatMap,
    flatMap_length_const _ (torusQuad numSides) 6 (fun p _ => rfl), torusPairs_length]
  ring

theorem torusIndices_lt (numSides numRings : ℕ) :
    ∀ i ∈ torusIndices numSides numRings, i < numSides * (numRings + 1) := by
  intro i hi
  rw [torusIndices_eq_flatMap, List.mem_flatMap] at hi
  obtain ⟨p, hp, hip⟩ := hi
  rw [mem_torusPairs] at hp
  obtain ⟨h1, h2⟩ := hp
  have hns : (p.2 + 1) % numSides < numSides := Nat.mod_lt _ (by omega)
  simp only [torusQuad, List.mem_cons, List.not_mem_nil, or_false] at hip
  rcases hip with rfl | rfl | rfl | rfl | rfl | rfl
  · exact lt_of_le_of_lt (Nat.mod_le _ _)
      (torus_index_bound numSides numRings p.1 p.2 (by omega) h2)
  · exact lt_of_le_of_lt (Nat.mod_le _ _)
      (torus_index_bound numSides numRings (p.1 + 1) p.2 (by omega) h2)
  · exact lt_of_le_of_lt (Nat.mod_le _ _)
      (torus_index_bound numSides numRings (p.1 + 1) _ (by omega) hns)
  · exact lt_of_le_of_lt (Nat.mod_le _ _)
      (torus_index_bound numSides numRings p.1 p.2 (by omega) h2)
  · exact lt_of_le_of_lt (Nat.mod_le _ _)
      (torus_index_bound numSides numRings (p.1 + 1) _ (by omega) hns)
  · exact lt_of_le_of_lt (Nat.mod_le _ _)
      (torus_index_bound numSides numRings p.1 _ (by omega) hns)

theorem torusPairs_get (numSides numRings ring side : ℕ)
    (hr : ring < numRings) (hs : side < numSides)
    (hi : numSides * ring + side < (torusPairs numSides numRings).length) :
    (torusPairs numSides numRings).get ⟨numSides * ring + side, hi⟩ = (ring, side) := by
  have h1 := torusPairs_getElem? numSides numRings ring side hr hs
  rw [List.getElem?_eq_getElem hi] at h1
  simpa [List.get_eq_getElem] using Option.some.inj h1

theorem torusVertexData_points_getElem? {K : Type*} [Field K] (c s sq : K → K)
    (twoPi outerRadius innerRadius : K) (numSides numRings ring side j : ℕ)
    (hr : ring < numRings + 1) (hs : side < numSides) (hj : j < 3) :
    (torusVertexData c s sq twoPi outerRadius innerRadius numSides
        numRings).points[3 * (numSides * ring + side) + j]?
      = (torusPointChunk c s twoPi outerRadius innerRadius numSides numRings (ring, side))[j]? := by
  simp only [torusVertexData_eq]
  have hi : numSides * ring + side < (torusPairs numSides (numRings + 1)).length := by
    rw [torusPairs_length]
    calc numSides * ring + side < numSides * (ring + 1) := by rw [Nat.mul_succ]; omega
    _ ≤ numSides * (numRings + 1) := Nat.mul_le_mul_left numSides (by omega)
    _ = (numRings + 1) * numSides := Nat.mul_comm _ _
  rw [flatMap_getElem?_chunk _ 3 _ _ _ (fun p _ => by simp [torusPointChunk]) hj hi,
    torusPairs_get numSides (numRings + 1) ring side hr hs hi]

theorem torusVertexData_normals_getElem? {K : Type*} [Field K] (c s sq : K → K)
    (twoPi outerRadius innerRadius : K) (numSides numRings ring side j : ℕ)
    (hr : ring < numRings + 1) (hs : side < numSides) (hj : j < 3) :
    (torusVertexData c s sq twoPi outerRadius innerRadius numSides
        numRings).normals[3 * (numSides * ring + side) + j]?
      = (torusNormalChunk c s sq twoPi outerRadius innerRadius numSides numRings
          (ring, side))[j]? := by
  simp only [torusVertexData_eq]
  have hi : numSides * ring + side < (torusPairs numSides (numRings + 1)).length := by
    rw [torusPairs_length]
    calc numSides * ring + side < numSides * (ring + 1) := by rw [Nat.mul_succ]; omega
    _ ≤ numSides * (numRings + 1) := Nat.mul_le_mul_left numSides (by omega)
    _ = (numRings + 1) * numSides := Nat.mul_comm _ _
  rw [flatMap_getElem?_chunk _ 3 _ _ _ (fun p _ => by simp [torusNormalChunk]) hj hi,
    torusPairs_get numSides (numRings + 1) ring side hr hs hi]

theorem torusVertexData_tex_getElem? {K : Type*} [Field K] (c s sq : K → K)
    (twoPi outerRadius innerRadius : K) (numSides numRings ring side j : ℕ)
    (hr : ring < numRings + 1) (hs : side < numSides) (hj : j < 2) :
    (torusVertexData c s sq twoPi outerRadius innerRadius numSides
        numRings).tex_coords[2 * (numSides * ring + side) + j]?
      = (torusTexChunk twoPi numSides numRings (ring, side))[j]? := by
  simp only [torusVertexData_eq]
  have hi : numSides * ring + side < (torusPairs numSides (numRings + 1)).length := by
    rw [torusPairs_length]
    calc numSides * ring + side < numSides * (ring + 1) := by rw [Nat.mul_succ]; omega
    _ ≤ numSides * (numRings + 1) := Nat.mul_le_mul_left numSides (by omega)
    _ = (numRings + 1) * numSides := Nat.mul_comm _ _
  rw [flatMap_getElem?_chunk _ 2 _ _ _ (fun p _ => by simp [torusTexChunk]) hj hi,
    torusPairs_get numSides (numRings + 1) ring side hr hs hi]

theorem torusPointChunk_seam {K : Type*} [Field K] (c s : K → K)
    (twoPi outerRadius innerRadius : K) (numSides numRings side : ℕ)
    (hRK : (numRings : K) ≠ 0) (hc : c twoPi = c 0) (hs : s twoPi = s 0) :
    torusPointChunk c s twoPi outerRadius innerRadius numSides numRings (numRings, side)
      = torusPointChunk c s twoPi outerRadius innerRadius numSides numRings (0, side) := by
  simp only [torusPointChunk]
  rw [div_mul_cancel₀ twoPi hRK, hc, hs]
  norm_num

theorem torusNormalChunk_seam {K : Type*} [Field K] (c s sq : K → K)
    (twoPi outerRadius innerRadius : K) (numSides numRings side : ℕ)
    (hRK : (numRings : K) ≠ 0) (hc : c twoPi = c 0) (hs : s twoPi = s 0) :
    torusNormalChunk c s sq twoPi outerRadius innerRadius numSides numRings (numRings, side)
      = torusNormalChunk c s sq twoPi outerRadius innerRadius numSides numRings (0, side) := by
  simp only [torusNormalChunk]
  rw [div_mul_cancel₀ twoPi hRK, hc, hs]
  norm_num

theorem torus_tex_ratio {K : Type*} [Field K] (twoPi : K) (n k : ℕ)
    (htp : twoPi ≠ 0) : twoPi / (n : K) * (k : K) / twoPi = (k : K) / (n : K) := by
  rw [div_mul_eq_mul_div, div_div, mul_comm ((n : K)) twoPi,
    mul_div_mul_left (k : K) (n : K) htp]

-- ---------------------------------------------------------------------------
-- Claim theorems: torus generator
-- ---------------------------------------------------------------------------

/-- C1: for every torus generated by `TriangleMesh::new_torus` with
`numSides = S`, `numRings = R` (`S, R ≥ 3`), the generated vertex count equals
`S * (R + 1)` (positions/normals carry 3 floats per vertex, texture
coordinates 2), the generated index count equals `6 * S * R`, and every
generated index is strictly below `S * (R + 1)`; in particular at
`outerRadius = 0.7, innerRadius = 0.3, numSides = 4, numRings = 4` the
generator produces 20 vertices and 96 indices, all below 20. -/
theorem claim_torus_counts {K : Type*} [Field K] (c s sq : K → K)
    (twoPi outerRadius innerRadius : K) (numSides numRings : ℕ)
    (hS : 3 ≤ numSides) (hR : 3 ≤ numRings) :
    (torusVertexData c s sq twoPi outerRadius innerRadius numSides numRings).points.length
        = 3 * torusNumVerts numSides numRings
    ∧ (torusVertexData c s sq twoPi outerRadius innerRadius numSides numRings).normals.length
        = 3 * torusNumVerts numSides numRings
    ∧ (torusVertexData c s sq twoPi outerRadius innerRadius numSides
          numRings).tex_coords.length
        = 2 * torusNumVerts numSides numRings
    ∧ torusNumVerts numSides numRings = numSides * (numRings + 1)
    ∧ (torusIndices numSides numRings).length = 6 * (numSides * numRings)
    ∧ (∀ i ∈ torusIndices numSides numRings, i < numSides * (numRings + 1))
    ∧ torusNumVerts 4 4 = 20
    ∧ (torusVertexData c s sq twoPi (7 / 10 : K) (3 / 10 : K) 4 4).points.length = 3 * 20
    ∧ (torusIndices 4 4).length = 96
    ∧ ∀ i ∈ torusIndices 4 4, i < 20 := by
  refine ⟨torusVertexData_points_length c s sq twoPi outerRadius innerRadius numSides numRings,
    torusVertexData_normals_length c s sq twoPi outerRadius innerRadius numSides numRings,
    torusVertexData_tex_length c s sq twoPi outerRadius innerRadius numSides numRings,
    rfl,
    torusIndices_length numSides numRings,
    torusIndices_lt numSides numRings,
    rfl, ?_, ?_, ?_⟩
  · exact (torusVertexData_points_length c s sq twoPi (7 / 10) (3 / 10) 4 4).trans (by norm_num)
  · exact (torusIndices_length 4 4).trans (by norm_num)
  · exact fun i hi => lt_of_lt_of_eq (torusIndices_lt 4 4 i hi) (by norm_num)

/-- Witness for C1 at `K = ℚ`, constant stand-ins for cos/sin/sqrt,
`twoPi = 1`, `numSides = numRings = 4`. -/
theorem claim_torus_counts_witness :
    (torusVertexData (fun _ => (0 : ℚ)) (fun _ => 0) (fun _ => 0) 1 (7 / 10) (3 / 10) 4
        4).points.length = 3 * torusNumVerts 4 4 :=
  (claim_torus_counts (fun _ => (0 : ℚ)) (fun _ => 0) (fun _ => 0) 1 (7 / 10) (3 / 10) 4 4
    (by decide) (by decide)).1

/-- C2: the generated index list is exactly `numSides * numRings` quads in
ring-major order, each quad emitted as two triangles with the winding
`(ring, side), (ring+1, side), (ring+1, side+1)` then
`(ring, side), (ring+1, side+1), (ring, side+1)`, the side successor wrapping
modulo `numSides` while the ring successor addresses the duplicated ring
without wrapping; vertex `(ring, side)` has index `ring * numSides + side`,
cast `as u32` (the second conjunct removes the cast whenever every vertex
index fits in 32 bits, which holds for any practically sized torus). -/
theorem claim_torus_winding (numSides numRings : ℕ) :
    torusIndices numSides numRings
      = (List.range numRings).flatMap (fun ring =>
          (List.range numSides).flatMap (fun side =>
            [(ring * numSides + side) % 2 ^ 32,
              ((ring + 1) * numSides + side) % 2 ^ 32,
              ((ring + 1) * numSides + (side + 1) % numSides) % 2 ^ 32,
              (ring * numSides + side) % 2 ^ 32,
              ((ring + 1) * numSides + (side + 1) % numSides) % 2 ^ 32,
              (ring * numSides + (side + 1) % numSides) % 2 ^ 32]))
    ∧ (numSides * (numRings + 1) ≤ 2 ^ 32 →
        torusIndices numSides numRings
          = (List.range numRings).flatMap (fun ring =>
              (List.range numSides).flatMap (fun side =>
                [ring * numSides + side,
                  (ring + 1) * numSides + side,
                  (ring + 1) * numSides + (side + 1) % numSides,
                  ring * numSides + side,
                  (ring + 1) * numSides + (side + 1) % numSides,
                  ring * numSides + (side + 1) % numSides]))) := by
  have base : torusIndices numSides numRings
      = (List.range numRings).flatMap (fun ring =>
          (List.range numSides).flatMap (fun side => torusQuad numSides (ring, side))) := by
    rw [torusIndices_eq_flatMap, torusPairs_flatMap]
  constructor
  · exact base
  · intro hle
    rw [base]
    refine flatMap_congr_mem _ _ _ (fun ring hring => ?_)
    refine flatMap_congr_mem _ _ _ (fun side hside => ?_)
    rw [List.mem_range] at hring hside
    have hns : (side + 1) % numSides < numSides := Nat.mod_lt _ (by omega)
    have b1 : ring * numSides + side < 2 ^ 32 :=
      lt_of_lt_of_le (torus_index_bound numSides numRings ring side (by omega) hside) hle
    have b2 : (ring + 1) * numSides + side < 2 ^ 32 :=
      lt_of_lt_of_le (torus_index_bound numSides numRings (ring + 1) side (by omega) hside) hle
    have b3 : (ring + 1) * numSides + (side + 1) % numSides < 2 ^ 32 :=
      lt_of_lt_of_le (torus_index_bound numSides numRings (ring + 1) _ (by omega) hns) hle
    have b4 : ring * numSides + (side + 1) % numSides < 2 ^ 32 :=
      lt_of_lt_of_le (torus_index_bound numSides numRings ring _ (by omega) hns) hle
    simp only [torusQuad]
    rw [Nat.mod_eq_of_lt b1, Nat.mod_eq_of_lt b2, Nat.mod_eq_of_lt b3, Nat.mod_eq_of_lt b4]

/-- Witness for C2 at `numSides = numRings = 4` (20 vertices fit in 32 bits). -/
theorem claim_torus_winding_witness :
    torusIndices 4 4
      = (List.range 4).flatMap (fun ring =>
          (List.range 4).flatMap (fun side =>
            [ring * 4 + side, (ring + 1) * 4 + side, (ring + 1) * 4 + (side + 1) % 4,
              ring * 4 + side, (ring + 1) * 4 + (side + 1) % 4,
              ring * 4 + (side + 1) % 4])) :=
  (claim_torus_winding 4 4).2 (by decide)

/-- C3: in every generated torus, each vertex of the duplicated ring (ring
index `R`) has position and normal identical to the corresponding vertex of
ring `0`, while its texture coordinate `u` equals exactly `1` (not `0`); more
generally the texture coordinates are the two angles divided by `two_pi` and
lie in `[0,1] × [0,1]`.  Vertex `(ring, side)` occupies grid slot
`numSides * ring + side`; its positions/normals sit at float offsets
`3 * slot + j`, its texture coordinates at `2 * slot + j`.  The hypotheses
`c twoPi = c 0`, `s twoPi = s 0`, `twoPi ≠ 0` hold for the mathematical
cosine, sine and `2π` that the abstract parameters model. -/
theorem claim_torus_seam {K : Type*} [LinearOrderedField K] (c s sq : K → K)
    (twoPi outerRadius innerRadius : K) (numSides numRings : ℕ)
    (hS : 3 ≤ numSides) (hR : 3 ≤ numRings)
    (hc : c twoPi = c 0) (hsin : s twoPi = s 0) (htp : twoPi ≠ 0) :
    (∀ side < numSides, ∀ j < 3,
        (torusVertexData c s sq twoPi outerRadius innerRadius numSides
            numRings).points[3 * (numSides * numRings + side) + j]?
          = (torusVertexData c s sq twoPi outerRadius innerRadius numSides
              numRings).points[3 * (numSides * 0 + side) + j]?
      ∧ (torusVertexData c s sq twoPi outerRadius innerRadius numSides
            numRings).normals[3 * (numSides * numRings + side) + j]?
          = (torusVertexData c s sq twoPi outerRadius innerRadius numSides
              numRings).normals[3 * (numSides * 0 + side) + j]?)
    ∧ (∀ side < numSides,
        (torusVertexData c s sq twoPi outerRadius innerRadius numSides
            numRings).tex_coords[2 * (numSides * numRings + side) + 0]? = some 1)
    ∧ (∀ ring ≤ numRings, ∀ side < numSides, ∃ t u : K,
        (torusVertexData c s sq twoPi outerRadius innerRadius numSides
            numRings).tex_coords[2 * (numSides * ring + side) + 0]? = some t
        ∧ (torusVertexData c s sq twoPi outerRadius innerRadius numSides
            numRings).tex_coords[2 * (numSides * ring + side) + 1]? = some u
        ∧ 0 ≤ t ∧ t ≤ 1 ∧ 0 ≤ u ∧ u ≤ 1) := by
  have hRK : ((numRings : ℕ) : K) ≠ 0 := Nat.cast_ne_zero.mpr (by omega)
  have hSK : ((numSides : ℕ) : K) ≠ 0 := Nat.cast_ne_zero.mpr (by omega)
  refine ⟨?_, ?_, ?_⟩
  · intro side hside j hj
    constructor
    · rw [torusVertexData_points_getElem? c s sq twoPi outerRadius innerRadius numSides
          numRings numRings side j (by omega) hside hj,
        torusVertexData_points_getElem? c s sq twoPi outerRadius innerRadius numSides
          numRings 0 side j (by omega) hside hj,
        torusPointChunk_seam c s twoPi outerRadius innerRadius numSides numRings side
          hRK hc hsin]
    · rw [torusVertexData_normals_getElem? c s sq twoPi outerRadius innerRadius numSides
          numRings numRings side j (by omega) hside hj,
        torusVertexData_normals_getElem? c s sq twoPi outerRadius innerRadius numSides
          numRings 0 side j (by omega) hside hj,
        torusNormalChunk_seam c s sq twoPi outerRadius innerRadius numSides numRings side
          hRK hc hsin]
  · intro side hside
    rw [torusVertexData_tex_getElem? c s sq twoPi outerRadius innerRadius numSides numRings
        numRings side 0 (by omega) hside (by omega)]
    simp only [torusTexChunk]
    rw [List.getElem?_cons_zero, div_mul_cancel₀ twoPi hRK, div_self htp]
  · intro ring hring side hside
    refine ⟨(ring : K) / (numRings : K), (side : K) / (numSides : K), ?_, ?_, ?_, ?_, ?_, ?_⟩
    · rw [torusVertexData_tex_getElem? c s sq twoPi outerRadius innerRadius numSides numRings
          ring side 0 (by omega) hside (by omega)]
      simp only [torusTexChunk]
      rw [List.getElem?_cons_zero, torus_tex_ratio twoPi numRings ring htp]
    · rw [torusVertexData_tex_getElem? c s sq twoPi outerRadius innerRadius numSides numRings
          ring side 1 (by omega) hside (by omega)]
      simp only [torusTexChunk]
      rw [List.getElem?_cons_succ, List.getElem?_cons_zero,
        torus_tex_ratio twoPi numSides side htp]
    · exact div_nonneg (Nat.cast_nonneg ring) (Nat.cast_nonneg numRings)
    · exact (div_le_one (Nat.cast_pos.mpr (by omega))).mpr (Nat.cast_le.mpr hring)
    · exact div_nonneg (Nat.cast_nonneg side) (Nat.cast_nonneg numSides)
    · exact (div_le_one (Nat.cast_pos.mpr (by omega))).mpr (Nat.cast_le.mpr (by omega))

/-- Witness for C3 at `K = ℚ` with constant stand-ins satisfying the
periodicity hypotheses (`c = const 7`, `s = const 5`, `twoPi = 1`),
`numSides = numRings = 4`, `side = 3`, component `j = 0`. -/
theorem claim_torus_seam_witness :
    (torusVertexData (fun _ => (7 : ℚ)) (fun _ => 5) (fun _ => 2) 1 (7 / 10) (3 / 10) 4
        4).points[3 * (4 * 4 + 3) + 0]?
      = (torusVertexData (fun _ => (7 : ℚ)) (fun _ => 5) (fun _ => 2) 1 (7 / 10) (3 / 10) 4
          4).points[3 * (4 * 0 + 3) + 0]? :=
  ((claim_torus_seam (fun _ => (7 : ℚ)) (fun _ => 5) (fun _ => 2) 1 (7 / 10) (3 / 10) 4 4
      (by decide) (by decide) rfl rfl one_ne_zero).1 3 (by decide) 0 (by decide)).1

-- ---------------------------------------------------------------------------
-- Claim theorems: shader program, shader manager, mesh construction
-- ---------------------------------------------------------------------------

/-- C4: `ShaderProgram::link` is idempotent: a first successful link from the
Unlinked state returns success, sets the linked flag, rebuilds the uniform
table (cleared, then repopulated from the reflected uniforms) and issues
exactly one `link_program`; every subsequent `link` call — under ANY driver
state — returns success immediately, leaves the program state (including the
uniform table) untouched and issues no GL command, so the rebuild happens
exactly once per Unlinked → Linked transition. -/
theorem claim_link_idempotent (p : ShaderProgram) (d d' : LinkDriver)
    (hun : p.linked = false) (hok : d.linkStatus = true) :
    (@ShaderProgram.link ℚ p d).1 = Except.ok ()
    ∧ (@ShaderProgram.link ℚ p d).2.1.linked = true
    ∧ (@ShaderProgram.link ℚ p d).2.1.uniform_locations = buildUniformLocations d
    ∧ (@ShaderProgram.link ℚ p d).2.2 = [GlCmd.linkProgram p.program]
    ∧ @ShaderProgram.link ℚ (@ShaderProgram.link ℚ p d).2.1 d'
        = (Except.ok (), (@ShaderProgram.link ℚ p d).2.1, []) := by
  simp [ShaderProgram.link, hun, hok]

/-- Witness for C4: a fresh program, a driver that reports a successful link
with one active uniform, then a second call whose driver would fail. -/
theorem claim_link_idempotent_witness :
    (@ShaderProgram.link ℚ (ShaderProgram.new 1)
        ⟨true, "", [some "u"], fun _ => some 0⟩).1 = Except.ok ()
    ∧ @ShaderProgram.link ℚ
        (@ShaderProgram.link ℚ (ShaderProgram.new 1)
          ⟨true, "", [some "u"], fun _ => some 0⟩).2.1
        ⟨false, "x", [], fun _ => none⟩
      = (Except.ok (),
          (@ShaderProgram.link ℚ (ShaderProgram.new 1)
            ⟨true, "", [some "u"], fun _ => some 0⟩).2.1, []) := by
  have h := claim_link_idempotent (ShaderProgram.new 1) ⟨true, "", [some "u"], fun _ => some 0⟩
    ⟨false, "x", [], fun _ => none⟩ rfl rfl
  exact ⟨h.1, h.2.2.2.2⟩

/-- C5: `ShaderProgram::link` in the Unlinked state with a failing link
returns a `LinkError` carrying the driver info log verbatim, leaves the whole
program state unchanged (still Unlinked, uniform table untouched — it is
populated only by a successful link), and issues only the `link_program`
attempt. -/
theorem claim_link_failure (p : ShaderProgram) (d : LinkDriver)
    (hun : p.linked = false) (hfail : d.linkStatus = false) :
    @ShaderProgram.link ℚ p d
      = (Except.error d.infoLog, p, [GlCmd.linkProgram p.program]) := by
  simp [ShaderProgram.link, hun, hfail]

/-- Witness for C5: a fresh program and a driver reporting link failure. -/
theorem claim_link_failure_witness :
    @ShaderProgram.link ℚ (ShaderProgram.new 2) ⟨false, "bad link", [], fun _ => none⟩
      = (Except.error "bad link", ShaderProgram.new 2, [GlCmd.linkProgram 2]) :=
  claim_link_failure (ShaderProgram.new 2) ⟨false, "bad link", [], fun _ => none⟩ rfl rfl

/-- C6: `ShaderProgram::use_program` on an Unlinked program returns the
`NotLinkedError` result (a reported error, not a panic — the model is a total
function) and activates nothing; on a Linked program it activates the program
and returns success. -/
theorem claim_use_program (p : ShaderProgram) :
    (p.linked = false →
      @ShaderProgram.use_program ℚ p = (Except.error "Shader program not been linked", []))
    ∧ (p.linked = true →
      @ShaderProgram.use_program ℚ p = (Except.ok (), [GlCmd.useProgram (some p.program)])) := by
  constructor
  · intro h
    simp [ShaderProgram.use_program, ShaderProgram.assert_linked, h]
  · intro h
    simp [ShaderProgram.use_program, ShaderProgram.assert_linked, h]

/-- Witness for C6: an unlinked and a linked concrete program. -/
theorem claim_use_program_witness :
    @ShaderProgram.use_program ℚ (ShaderProgram.new 3)
      = (Except.error "Shader program not been linked", [])
    ∧ @ShaderProgram.use_program ℚ ⟨3, true, [], []⟩
      = (Except.ok (), [GlCmd.useProgram (some 3)]) :=
  ⟨(claim_use_program (ShaderProgram.new 3)).1 rfl,
    (claim_use_program ⟨3, true, [], []⟩).2 rfl⟩

/-- C7: for every name absent from the uniform table,
`ShaderProgram::set_uniform_value` emits exactly one warning (the source's
message) and returns with no GL upload; as a `&self` method it cannot change
the program state.  A never-linked program (`ShaderProgram::new`) has an
empty table, so every name is absent from it. -/
theorem claim_unknown_uniform {K : Type*} (p : ShaderProgram)
    (supported_extensions : List String) (name : String) (value : GlslValue K)
    (h : mapContainsKey p.uniform_locations name = false) :
    p.set_uniform_value supported_extensions name value
      = (["Shader program has no uniform with name \"" ++ name ++ "\""], [])
    ∧ ∀ program : ℕ, ∀ nm : String,
        mapContainsKey (ShaderProgram.new program).uniform_locations nm = false := by
  constructor
  · simp [ShaderProgram.set_uniform_value, h]
  · intro program nm
    rfl

/-- Witness for C7: `set_uniform_value "nonexistent"` on a fresh program. -/
theorem claim_unknown_uniform_witness :
    (ShaderProgram.new 4).set_uniform_value [] "nonexistent" (GlslValue.Float32 (1 : ℚ))
      = (["Shader program has no uniform with name \"" ++ "nonexistent" ++ "\""], []) :=
  (claim_unknown_uniform (ShaderProgram.new 4) [] "nonexistent"
    (GlslValue.Float32 (1 : ℚ)) rfl).1

/-- C8: when `ShaderManager::load_shader` reads the source successfully but
compilation fails, it returns a `CompileError` carrying the driver info log
and the name → stage map is unchanged — but, contrary to the claim, the
shader handle created for the failed compile is NOT released: the trace of
the failing call contains `create_shader` (handle 7) and no `delete_shader`,
so the handle leaks. -/
theorem claim_compile_failure_leak :
    ShaderManager.load_shader (ShaderManager.mk [])
        ⟨Except.ok "src", Except.ok 7, false, "syntax error"⟩ "v" ShaderType.Vertex
      = ((Except.error "syntax error", ShaderManager.mk [],
          [GlCmd.createShader 35633, GlCmd.shaderSource 7 "src", GlCmd.compileShader 7])
          : Except String Unit × ShaderManager × List (GlCmd ℚ))
    ∧ GlCmd.deleteShader 7 ∉
        ([GlCmd.createShader 35633, GlCmd.shaderSource 7 "src", GlCmd.compileShader 7]
          : List (GlCmd ℚ)) := by
  constructor
  · rfl
  · simp

/-- C9: when the third `create_buffer` of `TriangleMesh::new` fails (after
the index and position buffers were created), construction aborts with the
GPU error — but, contrary to the claim, neither already-created buffer is
released: the failing call's trace contains `create_buffer 1` and
`create_buffer 2` and no `delete_buffer`, so both handles leak. -/
theorem claim_mesh_alloc_failure_leak :
    TriangleMesh.new ⟨[Except.ok 1, Except.ok 2, Except.error "out of memory"], Except.ok 10⟩
        [0, 1, 2] (List.replicate 9 (0 : ℚ)) (List.replicate 9 0)
        (some (List.replicate 6 0)) none
      = (Except.error "out of memory",
          [GlCmd.createBuffer 1, GlCmd.bindBuffer ELEMENT_ARRAY_BUFFER (some 1),
            GlCmd.bufferDataU32 ELEMENT_ARRAY_BUFFER [0, 1, 2] STATIC_DRAW,
            GlCmd.createBuffer 2, GlCmd.bindBuffer ARRAY_BUFFER (some 2),
            GlCmd.bufferDataF32 ARRAY_BUFFER (List.replicate 9 0) STATIC_DRAW])
    ∧ ∀ b : ℕ, GlCmd.deleteBuffer b ∉
        [GlCmd.createBuffer 1, GlCmd.bindBuffer ELEMENT_ARRAY_BUFFER (some 1),
          GlCmd.bufferDataU32 ELEMENT_ARRAY_BUFFER [0, 1, 2] STATIC_DRAW,
          GlCmd.createBuffer 2, GlCmd.bindBuffer ARRAY_BUFFER (some 2),
          GlCmd.bufferDataF32 ARRAY_BUFFER (List.replicate 9 (0 : ℚ)) STATIC_DRAW] := by
  constructor
  · rfl
  · intro b
    simp

/-- C10: converting every `ShaderType` variant to its native constant with
`Into<u32>` and back with `TryFrom<u32>` yields `Ok` of the same variant, and
`TryFrom<u32>` returns the source's error for every 32-bit value that is not
one of the six stage constants. -/
theorem claim_shader_type_roundtrip :
    (∀ t : ShaderType, ShaderType.try_from t.into = Except.ok t)
    ∧ ∀ v : ℕ, v < 2 ^ 32 →
        v ∉ [VERTEX_SHADER, FRAGMENT_SHADER, GEOMETRY_SHADER, TESS_CONTROL_SHADER,
          TESS_EVALUATION_SHADER, COMPUTE_SHADER] →
        ShaderType.try_from v = Except.error ("Unknown shader type: " ++ toString v) := by
  constructor
  · intro t
    cases t <;> rfl
  · intro v hv hmem
    simp only [List.mem_cons, List.not_mem_nil, or_false] at hmem
    push_neg at hmem
    obtain ⟨h1, h2, h3, h4, h5, h6⟩ := hmem
    simp only [ShaderType.try_from]
    rw [if_neg h1, if_neg h2, if_neg h3, if_neg h4, if_neg h5, if_neg h6]

/-- Witness for C10: `try_from 0` is an error with the source's message. -/
theorem claim_shader_type_roundtrip_witness :
    ShaderType.try_from 0 = Except.error ("Unknown shader type: " ++ toString 0) :=
  claim_shader_type_roundtrip.2 0 (by decide) (by decide)
